import Mathlib

/-!
Verification of the PWHL database analytics scripts.

Shallow embedding of the expected-goals (xG) scorer, its per-player
aggregation pass, the GSAx goalie pass, the season-8 fallback estimators
and the team Corsi%/PDO derivations, translated from:
  calculate_xg.py, estimate_xg_season8.py, calculate_gsax.py,
  calculate_advanced_stats.py

Python floats are modelled as rationals (ℚ); database integers as Int;
SQL COUNT results as Nat.  A Python value that may be NULL is an Option.
-/

namespace PWHL

/-! ## Shot xG scorer (calculate_xg.py) -/

/-- `calculate_distance_from_offensive_zone` from calculate_xg.py:
`abs(y - 147)` where center ice is at y = 147. -/
def calculate_distance_from_offensive_zone (y : Int) : Int :=
  |y - 147|

/-- The zone base rate of `calculate_xg` (calculate_xg.py lines 36-41):
`if y < 100 or y > 200: base_xg = 0.04 else: base_xg = 0.12`. -/
def base_xg (y : Int) : ℚ :=
  if y < 100 ∨ y > 200 then 4/100 else 12/100

/-- Association-list model of a Python dict with `.get(key, default)`. -/
def dictGet {α : Type} [DecidableEq α] : List (α × ℚ) → α → ℚ → ℚ
  | [], _, d => d
  | (k, v) :: rest, key, d => if key = k then v else dictGet rest key d

/-- `type_multipliers` dict from calculate_xg.py lines 44-51. -/
def type_multipliers : List (Int × ℚ) :=
  [(1, 140/100), (2, 1), (3, 119/100), (4, 125/100), (5, 125/100), (6, 182/100)]

/-- `quality_multipliers` dict from calculate_xg.py lines 57-62. -/
def quality_multipliers : List (Int × ℚ) :=
  [(1, 115/100), (2, 85/100), (5, 115/100), (6, 85/100)]

/-- `calculate_xg(shot_type, quality, x, y, is_goal)` from calculate_xg.py:
zone base rate, shot-type multiplier (default 1.0), quality multiplier
(default 1.0), product capped by `min(xg, 0.25)`.  The arguments `x` and
`is_goal` appear in the Python signature but are never read by the body. -/
def calculate_xg (shot_type quality x y is_goal : Int) : ℚ :=
  min (base_xg y * dictGet type_multipliers shot_type 1
        * dictGet quality_multipliers quality 1) (25/100)

/-- A Python runtime error relevant here: comparing None with an int. -/
inductive PyErr : Type
  | typeError : PyErr
deriving DecidableEq

/-- Python `a < b` where `a` may be None: `None < int` raises TypeError. -/
def pyLt (a : Option Int) (b : Int) : Except PyErr Bool :=
  match a with
  | none => Except.error PyErr.typeError
  | some v => Except.ok (decide (v < b))

/-- Python `a > b` where `a` may be None. -/
def pyGt (a : Option Int) (b : Int) : Except PyErr Bool :=
  match a with
  | none => Except.error PyErr.typeError
  | some v => Except.ok (decide (v > b))

/-- `calculate_xg` under Python runtime semantics when the location may be
NULL (as fetched from the shots table): the zone test `y < 100 or y > 200`
short-circuits, and each comparison raises TypeError when `y` is None.
The dict lookups accept any code.  On non-null input it agrees with
`calculate_xg`. -/
def calculate_xgPy (shot_type quality : Int) (x y : Option Int) (is_goal : Int) :
    Except PyErr ℚ := do
  let l ← pyLt y 100
  let isPerim ← if l then pure true else pyGt y 200
  let base : ℚ := if isPerim then 4/100 else 12/100
  pure (min (base * dictGet type_multipliers shot_type 1
        * dictGet quality_multipliers quality 1) (25/100))

/-! ## Season-8 skater fallback estimator (estimate_xg_season8.py) -/

/-- The rate tables held by `xGEstimator` (`self.position_rates` flattened
to its `shooting_pct` entries, and `self.volume_rates`), loaded from the
database at start-up; the estimator is verified for arbitrary tables. -/
structure RateTables : Type where
  position_rates : List (String × ℚ)
  volume_rates : List (String × ℚ)
deriving DecidableEq

/-- `xGEstimator.estimate_xg_for_player(shots, goals, position)` from
estimate_xg_season8.py lines 72-118: returns 0.0 for `shots == 0`;
otherwise blends `0.6 * position_rate + 0.4 * volume_rate` (defaults 0.10),
multiplies by shots, and regresses toward actual goals with factor 0.8 /
0.6 / 0.4 chosen by shot volume; floors at zero.  (The Python also
computes `actual_rate = goals / shots` but never uses it.) -/
def estimate_xg_for_player (rt : RateTables) (shots goals : Int)
    (position : String) : ℚ :=
  if shots = 0 then 0
  else
    let position_rate := dictGet rt.position_rates position (10/100)
    let bucket : String :=
      if shots < 20 then "low"
      else if shots < 50 then "medium"
      else if shots < 80 then "high"
      else "very_high"
    let volume_rate := dictGet rt.volume_rates bucket (10/100)
    let expected_rate := position_rate * (6/10) + volume_rate * (4/10)
    let regression : ℚ :=
      if shots < 20 then 8/10 else if shots < 50 then 6/10 else 4/10
    max 0 ((shots : ℚ) * expected_rate * regression
            + (goals : ℚ) * (1 - regression))

/-! ## Table rows

Rows of the `shots`, `skater_stats` and `goalie_stats` tables, keeping the
columns the aggregation passes read or write.  `position` on a skater row
stands for the value obtained by the SQL join with the `players` table. -/

/-- A row of the `shots` table (columns used by the aggregation passes). -/
structure Shot : Type where
  player_id : Int
  team_id : Int
  opponent_team_id : Int
  season_id : Int
  goalie_id : Option Int
  xg : ℚ
  is_goal : Int
deriving DecidableEq

/-- A row of `skater_stats` (columns used by the xG passes), together with
the player's `position` from the joined `players` table. -/
structure SkaterRow : Type where
  player_id : Int
  team_id : Int
  season_id : Int
  goals : Int
  shots : Int
  position : String
  xg : ℚ
  goals_above_xg : ℚ
deriving DecidableEq

/-- A row of `goalie_stats` (columns used by the GSAx passes). -/
structure GoalieRow : Type where
  player_id : Int
  team_id : Int
  season_id : Int
  games_played : Int
  shots_against : Int
  goals_against : Int
  save_percentage : ℚ
  gsax : ℚ
deriving DecidableEq

/-! ## Skater xG aggregation (calculate_xg.py, aggregate_xg_by_player) -/

/-- The grouping key `(player_id, team_id, season_id)` of a skater row. -/
def skaterKey (r : SkaterRow) : Int × Int × Int :=
  (r.player_id, r.team_id, r.season_id)

/-- The grouping key `(player_id, team_id, season_id)` of a shot, as used
by `GROUP BY player_id, team_id, season_id`. -/
def shotSkaterKey (s : Shot) : Int × Int × Int :=
  (s.player_id, s.team_id, s.season_id)

/-- The shots belonging to one `(player, team, season)` group. -/
def shotsFor (shots : List Shot) (k : Int × Int × Int) : List Shot :=
  shots.filter (fun s => decide (shotSkaterKey s = k))

/-- `SUM(xg)` over a list of shots. -/
def sumXg (l : List Shot) : ℚ :=
  (l.map (fun s => s.xg)).sum

/-- `SUM(is_goal)` over a list of shots. -/
def sumGoals (l : List Shot) : Int :=
  (l.map (fun s => s.is_goal)).sum

/-- The distinct grouping keys produced by
`SELECT ... FROM shots GROUP BY player_id, team_id, season_id`. -/
def shotKeys (shots : List Shot) : List (Int × Int × Int) :=
  (shots.map shotSkaterKey).dedup

/-- The grouped result rows of the aggregation query in
`aggregate_xg_by_player` (calculate_xg.py lines 140-150): one row per
distinct `(player_id, team_id, season_id)` with `SUM(xg)`, `SUM(is_goal)`
and `COUNT(*)`. -/
def aggregateRows (shots : List Shot) : List ((Int × Int × Int) × ℚ × Int × Nat) :=
  (shotKeys shots).map (fun k =>
    (k, sumXg (shotsFor shots k), sumGoals (shotsFor shots k),
      (shotsFor shots k).length))

/-- Effect of `aggregate_xg_by_player` on one `skater_stats` row: the pass
first runs `UPDATE skater_stats SET xg = 0, goals_above_xg = 0` (no WHERE
clause, so every row of every season), then for each group writes
`xg = SUM(xg)` and `goals_above_xg = SUM(is_goal) - SUM(xg)` into the rows
matching the group's full triple.  A row's group is nonempty exactly when
the grouped query produced a row for its key. -/
def updateSkaterRow (shots : List Shot) (r : SkaterRow) : SkaterRow :=
  if shotsFor shots (skaterKey r) = [] then
    { r with xg := 0, goals_above_xg := 0 }
  else
    { r with
      xg := sumXg (shotsFor shots (skaterKey r)),
      goals_above_xg := (sumGoals (shotsFor shots (skaterKey r)) : ℚ)
        - sumXg (shotsFor shots (skaterKey r)) }

/-- `xGCalculator.aggregate_xg_by_player` (calculate_xg.py lines 131-171)
as a transform of the whole `skater_stats` table. -/
def aggregate_xg_by_player (shots : List Shot) (stats : List SkaterRow) :
    List SkaterRow :=
  stats.map (updateSkaterRow shots)

/-! ## Goalie GSAx from shots (calculate_gsax.py, calculate_gsax_from_shots) -/

/-- The shots faced by the goalie of row `r` in `season`: the query filters
`goalie_id IS NOT NULL AND season_id = ?` and groups by
`(goalie_id, opponent_team_id)`, the goalie's team. -/
def goalieShotsFor (season : Int) (shots : List Shot) (r : GoalieRow) :
    List Shot :=
  shots.filter (fun s =>
    decide (s.goalie_id = some r.player_id ∧ s.opponent_team_id = r.team_id
      ∧ s.season_id = season))

/-- Effect of `GSAxCalculator.calculate_gsax_from_shots(season)` on one
`goalie_stats` row: rows of that season whose goalie faced at least one
recorded shot get `gsax = SUM(xg) - SUM(is_goal)` over the shots faced;
all other rows are untouched. -/
def updateGoalieRow (season : Int) (shots : List Shot) (r : GoalieRow) :
    GoalieRow :=
  if r.season_id = season ∧ goalieShotsFor season shots r ≠ [] then
    { r with gsax := sumXg (goalieShotsFor season shots r)
        - (sumGoals (goalieShotsFor season shots r) : ℚ) }
  else r

/-- `GSAxCalculator.calculate_gsax_from_shots` (calculate_gsax.py lines
25-72) as a transform of the whole `goalie_stats` table. -/
def calculate_gsax_from_shots (season : Int) (shots : List Shot)
    (gstats : List GoalieRow) : List GoalieRow :=
  gstats.map (updateGoalieRow season shots)

/-! ## Goalie GSAx season-8 fallback (calculate_gsax.py, estimate_gsax_for_season_8) -/

/-- The rows entering the league-average query
`SELECT AVG(save_percentage) FROM goalie_stats WHERE season_id IN (1, 5)
AND games_played >= 5` (seasons 1 and 5 are the seasons with shot-level
data). -/
def leagueRows (gstats : List GoalieRow) : List GoalieRow :=
  gstats.filter (fun r =>
    decide ((r.season_id = 1 ∨ r.season_id = 5) ∧ 5 ≤ r.games_played))

/-- `league_avg_sv_pct` from calculate_gsax.py line 86: the SQL AVG over
`leagueRows`, with the Python `or 0.91` falling back when the average is
NULL (no rows) or a falsy 0.0. -/
def leagueAvgSvPct (gstats : List GoalieRow) : ℚ :=
  let rows := leagueRows gstats
  let avg : ℚ :=
    if rows.length = 0 then 0
    else ((rows.map (fun r => r.save_percentage)).sum) / (rows.length : ℚ)
  if avg = 0 then 91/100 else avg

/-- Effect of `GSAxCalculator.estimate_gsax_for_season_8` on one
`goalie_stats` row: season-8 rows with `shots_against > 0` get
`gsax = shots_against * (1 - league_avg_sv_pct) - goals_against`;
all other rows are untouched. -/
def estimateGsaxRow (gstats : List GoalieRow) (r : GoalieRow) : GoalieRow :=
  if r.season_id = 8 ∧ 0 < r.shots_against then
    { r with gsax := (r.shots_against : ℚ) * (1 - leagueAvgSvPct gstats)
        - (r.goals_against : ℚ) }
  else r

/-- `GSAxCalculator.estimate_gsax_for_season_8` (calculate_gsax.py lines
74-122) as a transform of the whole `goalie_stats` table. -/
def estimate_gsax_for_season_8 (gstats : List GoalieRow) : List GoalieRow :=
  gstats.map (estimateGsaxRow gstats)

/-! ## Skater season-8 fallback (estimate_xg_season8.py, estimate_season_8_xg) -/

/-- Effect of `xGEstimator.estimate_season_8_xg` on one `skater_stats` row:
season-8 rows with `shots > 0` get `xg = estimate_xg_for_player(...)` and
`goals_above_xg = goals - xg`; all other rows are untouched. -/
def estimateSkaterRow (rt : RateTables) (r : SkaterRow) : SkaterRow :=
  if r.season_id = 8 ∧ 0 < r.shots then
    { r with
      xg := estimate_xg_for_player rt r.shots r.goals r.position,
      goals_above_xg := (r.goals : ℚ)
        - estimate_xg_for_player rt r.shots r.goals r.position }
  else r

/-- `xGEstimator.estimate_season_8_xg` (estimate_xg_season8.py lines
120-159) as a transform of the whole `skater_stats` table. -/
def estimate_season_8_xg (rt : RateTables) (stats : List SkaterRow) :
    List SkaterRow :=
  stats.map (estimateSkaterRow rt)

/-! ## Team Corsi% and PDO (calculate_advanced_stats.py) -/

/-- `COUNT(CASE WHEN team_id = ? THEN 1 END)` over the season's shots. -/
def teamShotsFor (season team : Int) (shots : List Shot) : Nat :=
  (shots.filter (fun s => decide (s.team_id = team ∧ s.season_id = season))).length

/-- `COUNT(CASE WHEN opponent_team_id = ? THEN 1 END)` over the season's
shots. -/
def teamShotsAgainst (season team : Int) (shots : List Shot) : Nat :=
  (shots.filter (fun s =>
    decide (s.opponent_team_id = team ∧ s.season_id = season))).length

/-- The Corsi values written by `calculate_team_corsi_fenwick`
(calculate_advanced_stats.py lines 144-147): `(corsi_for, corsi_against,
corsi_pct)` with `corsi_pct = 100 * cf / (cf + ca)` when `cf + ca > 0`,
else 50. -/
def corsiUpdate (season team : Int) (shots : List Shot) : Nat × Nat × ℚ :=
  let cf := teamShotsFor season team shots
  let ca := teamShotsAgainst season team shots
  (cf, ca, if 0 < cf + ca then (100 : ℚ) * cf / ((cf : ℚ) + ca) else 50)

/-- The stored PDO of one team after `calculate_team_pdo`
(calculate_advanced_stats.py lines 320-347): the Python guard
`if shot_row and shot_row[0] and shot_row[1]` skips the team (leaving the
previously stored `oldPdo`) whenever either shot count is zero; otherwise
it stores `shooting_pct + save_pct` where
`shooting_pct = 100 * gf / sf if sf > 0 else 0` and
`save_pct = 100 * (sa - ga) / sa if sa > 0 else 91.6`. -/
def pdoUpdate (oldPdo : ℚ) (season team gf ga : Int) (shots : List Shot) : ℚ :=
  let sf := teamShotsFor season team shots
  let sa := teamShotsAgainst season team shots
  if sf ≠ 0 ∧ sa ≠ 0 then
    (if 0 < sf then (100 : ℚ) * gf / (sf : ℚ) else 0)
      + (if 0 < sa then (100 : ℚ) * ((sa : ℚ) - ga) / (sa : ℚ) else 916/10)
  else oldPdo

/-! ## Helper lemmas -/

lemma base_xg_pos (y : Int) : 0 < base_xg y := by
  unfold base_xg; split_ifs <;> norm_num

lemma type_mult_pos (t : Int) : 0 < dictGet type_multipliers t 1 := by
  simp only [type_multipliers, dictGet]; split_ifs <;> norm_num

lemma quality_mult_pos (q : Int) : 0 < dictGet quality_multipliers q 1 := by
  simp only [quality_multipliers, dictGet]; split_ifs <;> norm_num

lemma dictGet_type_default (t : Int) (ht : t ∉ ([1, 2, 3, 4, 5, 6] : List Int)) :
    dictGet type_multipliers t 1 = 1 := by
  simp only [List.mem_cons, List.not_mem_nil, or_false, not_or] at ht
  obtain ⟨h1, h2, h3, h4, h5, h6⟩ := ht
  simp [dictGet, type_multipliers, h1, h2, h3, h4, h5, h6]

lemma dictGet_quality_default (q : Int) (hq : q ∉ ([1, 2, 5, 6] : List Int)) :
    dictGet quality_multipliers q 1 = 1 := by
  simp only [List.mem_cons, List.not_mem_nil, or_false, not_or] at hq
  obtain ⟨h1, h2, h3, h4⟩ := hq
  simp [dictGet, quality_multipliers, h1, h2, h3, h4]

lemma calculate_xgPy_some (t q g : Int) (x : Option Int) (yv : Int) :
    calculate_xgPy t q x (some yv) g = Except.ok (calculate_xg t q 0 yv g) := by
  by_cases h1 : yv < 100
  · simp only [calculate_xgPy, pyLt, pyGt, calculate_xg, base_xg, h1,
      decide_True, if_pos, or_true, true_or, if_true]
    rfl
  · by_cases h2 : yv > 200 <;>
      · simp only [calculate_xgPy, pyLt, pyGt, calculate_xg, base_xg, h1, h2,
          or_self, or_false, false_or, decide_True, decide_False, if_pos,
          if_neg, if_true, if_false, not_false_eq_true]
        rfl

/-! ## C1 - C5 -/

/-- C1 (counterexample): contrary to the claim, `y = 100` and `y = 200` do
not get the perimeter base rate 0.04: the code's test `y < 100 or y > 200`
is false there, so both classify as high-danger with base rate 0.12, and a
wrist shot of quality 2 at `y = 100` scores 0.102, not 0.034. -/
theorem c1_zone_boundary_counterexample :
    base_xg 100 = 12/100 ∧ base_xg 200 = 12/100 ∧ ((12 : ℚ)/100) ≠ 4/100 ∧
    calculate_xg 2 2 0 100 0 = 102/1000 ∧ ((102 : ℚ)/1000) ≠ 34/1000 := by
  refine ⟨by norm_num [base_xg], by norm_num [base_xg], by norm_num, ?_, by norm_num⟩
  norm_num [calculate_xg, base_xg, dictGet, type_multipliers, quality_multipliers,
    min_def]

/-- C1 (amended): the zone base rate is determined by the y-coordinate via
the test `y < 100 or y > 200`: strictly outside [100, 200] is perimeter
with base rate 0.04, while `y = 100`, `y = 150` and `y = 200` all classify
as high-danger with base rate 0.12; a wrist shot (`shot_type = 2`) with
`quality = 2` and `y = 150` yields `xg = 0.12 * 1.00 * 0.85 = 0.102`. -/
theorem c1_zone_boundary (y x g : Int) :
    base_xg 100 = 12/100 ∧ base_xg 200 = 12/100 ∧ base_xg 150 = 12/100 ∧
    calculate_xg 2 2 x 150 g = 102/1000 ∧
    (y < 100 ∨ 200 < y → base_xg y = 4/100) ∧
    (100 ≤ y ∧ y ≤ 200 → base_xg y = 12/100) := by
  refine ⟨by norm_num [base_xg], by norm_num [base_xg], by norm_num [base_xg],
    ?_, ?_, ?_⟩
  · norm_num [calculate_xg, base_xg, dictGet, type_multipliers,
      quality_multipliers, min_def]
  · intro h; unfold base_xg; rw [if_pos h]
  · intro h; unfold base_xg; rw [if_neg (by omega)]

/-- C1 (witness for the amended theorem at `y = 50`). -/
theorem c1_zone_boundary_witness :
    base_xg 50 = 4/100 ∧ calculate_xg 2 2 0 150 0 = 102/1000 :=
  ⟨(c1_zone_boundary 50 0 0).2.2.2.2.1 (by norm_num),
   (c1_zone_boundary 50 0 0).2.2.2.1⟩

/-- C2: for every input, `calculate_xg` returns a value in [0, 0.25]; the
bound is the explicit `min(xg, 0.25)` cap, and a tip shot (`type = 6`) of
quality 5 at `y = 150` has raw product `0.12 * 1.82 * 1.15 = 0.25116`,
clamped to exactly 0.25. -/
theorem c2_xg_range (t q x y g : Int) :
    0 ≤ calculate_xg t q x y g ∧ calculate_xg t q x y g ≤ 25/100 ∧
    calculate_xg 6 5 x 150 g = 25/100 ∧
    base_xg 150 * dictGet type_multipliers 6 1 * dictGet quality_multipliers 5 1
      = 25116/100000 := by
  have hb := base_xg_pos y
  have ht := type_mult_pos t
  have hq := quality_mult_pos q
  refine ⟨le_min (by positivity) (by norm_num), min_le_right _ _, ?_, ?_⟩
  · norm_num [calculate_xg, base_xg, dictGet, type_multipliers,
      quality_multipliers, min_def]
  · norm_num [base_xg, dictGet, type_multipliers, quality_multipliers]

/-- C3: `calculate_xg` is a function of `(shot_type, quality, x, y)` only:
the `is_goal` argument never influences the returned score. -/
theorem c3_xg_ignores_outcome (t q x y g g' : Int) :
    calculate_xg t q x y g = calculate_xg t q x y g' := rfl

/-- C4 (counterexample): contrary to the claim, `calculate_xg` is not
total on a missing/null location: under Python semantics the zone test
`y < 100` compares None with an int and raises TypeError, so a shot with a
null y-location aborts the batch instead of being scored as perimeter. -/
theorem c4_null_location_counterexample :
    calculate_xgPy 2 2 none none 0 = Except.error PyErr.typeError := rfl

/-- C4 (amended): an unrecognized shot_type or quality code falls back to
the neutral multiplier 1.0 without raising, so a shot with a non-null
location always scores; but a missing/null y-location is not handled: the
comparison `y < 100` raises TypeError, aborting the batch. -/
theorem c4_malformed_input (t q g : Int) (x : Option Int) (yv : Int)
    (ht : t ∉ ([1, 2, 3, 4, 5, 6] : List Int))
    (hq : q ∉ ([1, 2, 5, 6] : List Int)) :
    calculate_xgPy t q x (some yv) g = Except.ok (min (base_xg yv) (25/100)) ∧
    calculate_xgPy t q x none g = Except.error PyErr.typeError := by
  refine ⟨?_, rfl⟩
  rw [calculate_xgPy_some]
  unfold calculate_xg
  rw [dictGet_type_default t ht, dictGet_quality_default q hq, mul_one, mul_one]

/-- C4 (witness at the unrecognized codes 99/99 and `y = 150`). -/
theorem c4_malformed_input_witness :
    calculate_xgPy 99 99 none (some 150) 0
        = Except.ok (min (base_xg 150) (25/100)) ∧
    calculate_xgPy 99 99 none none 0 = Except.error PyErr.typeError :=
  c4_malformed_input 99 99 0 none 150 (by decide) (by decide)

/-- C5: for `shots > 0` the season-8 skater fallback returns
`max(0, shots * (0.6 * position_rate + 0.4 * volume_rate) * r
+ goals * (1 - r))` with volume buckets `< 20`, `20-49`, `50-79`, `>= 80`
and regression factor 0.8 / 0.6 / 0.4 for `< 20`, `20-49`, `>= 50` shots;
for `shots = 0` (and `goals = 0`, any position) it returns exactly 0. -/
theorem c5_fallback_estimate (rt : RateTables) (shots goals : Int)
    (position : String) :
    (0 < shots →
      estimate_xg_for_player rt shots goals position =
        max 0 ((shots : ℚ)
            * ((6/10) * dictGet rt.position_rates position (10/100)
               + (4/10) * dictGet rt.volume_rates
                   (if shots < 20 then "low"
                    else if 20 ≤ shots ∧ shots ≤ 49 then "medium"
                    else if 50 ≤ shots ∧ shots ≤ 79 then "high"
                    else "very_high") (10/100))
            * (if shots < 20 then 8/10
               else if 20 ≤ shots ∧ shots ≤ 49 then 6/10 else 4/10)
          + (goals : ℚ)
            * (1 - (if shots < 20 then 8/10
                    else if 20 ≤ shots ∧ shots ≤ 49 then 6/10 else 4/10)))) ∧
    estimate_xg_for_player rt 0 0 position = 0 := by
  constructor
  · intro hpos
    unfold estimate_xg_for_player
    rw [if_neg (by omega)]
    by_cases h20 : shots < 20
    · simp only [if_pos h20]
      congr 1; ring
    · by_cases h50 : shots < 50
      · have hc : 20 ≤ shots ∧ shots ≤ 49 := by omega
        simp only [if_neg h20, if_pos h50, if_pos hc]
        congr 1; ring
      · have hc : ¬(20 ≤ shots ∧ shots ≤ 49) := by omega
        by_cases h80 : shots < 80
        · have hc' : 50 ≤ shots ∧ shots ≤ 79 := by omega
          simp only [if_neg h20, if_neg h50, if_pos h80, if_neg hc, if_pos hc']
          congr 1; ring
        · have hc' : ¬(50 ≤ shots ∧ shots ≤ 79) := by omega
          simp only [if_neg h20, if_neg h50, if_neg h80, if_neg hc, if_neg hc']
          congr 1; ring
  · simp [estimate_xg_for_player]

/-- Example rate tables for the C5 witness: position "D" converts at 9%,
the medium-volume bucket at 8%. -/
def rtEx : RateTables :=
  ⟨[("D", 9/100), ("F", 11/100)],
   [("low", 12/100), ("medium", 8/100), ("high", 19/200), ("very_high", 21/200)]⟩

/-- C5 (witness): `shots = 30, goals = 5, position = "D"` under `rtEx`
gives `max(0, 30 * (0.6 * 0.09 + 0.4 * 0.08) * 0.6 + 5 * 0.4) = 3.548`. -/
theorem c5_fallback_estimate_witness :
    estimate_xg_for_player rtEx 30 5 "D" = 887/250 := by
  have hD : dictGet rtEx.position_rates "D" (1/10) = 9/100 := by
    simp [rtEx, dictGet]
  have hne : ("medium" : String) ≠ "low" := by decide
  have hM : dictGet rtEx.volume_rates "medium" (1/10) = 8/100 := by
    simp [rtEx, dictGet, hne]
  have h := (c5_fallback_estimate rtEx 30 5 "D").1 (by norm_num)
  rw [h]
  norm_num [hD, hM]

/-! ## Helper lemmas for the aggregation passes -/

lemma skaterKey_set (r : SkaterRow) (a b : ℚ) :
    skaterKey { r with xg := a, goals_above_xg := b } = skaterKey r := rfl

lemma SkaterRow_set_set (r : SkaterRow) (a b c d : ℚ) :
    ({ ({ r with xg := a, goals_above_xg := b } : SkaterRow) with
        xg := c, goals_above_xg := d } : SkaterRow)
      = { r with xg := c, goals_above_xg := d } := rfl

lemma updateSkaterRow_idem (shots : List Shot) (r : SkaterRow) :
    updateSkaterRow shots (updateSkaterRow shots r) = updateSkaterRow shots r := by
  by_cases h : shotsFor shots (skaterKey r) = [] <;>
    simp [updateSkaterRow, skaterKey_set, SkaterRow_set_set, h]

lemma skaterKey_update (shots : List Shot) (r : SkaterRow) :
    skaterKey (updateSkaterRow shots r) = skaterKey r := by
  unfold updateSkaterRow; split_ifs <;> rfl

lemma skaterKey_estimate (rt : RateTables) (r : SkaterRow) :
    skaterKey (estimateSkaterRow rt r) = skaterKey r := by
  unfold estimateSkaterRow; split_ifs <;> rfl

lemma GoalieRow_set_season (r : GoalieRow) (v : ℚ) :
    ({ r with gsax := v } : GoalieRow).season_id = r.season_id := rfl

lemma goalieShotsFor_set (season : Int) (shots : List Shot) (r : GoalieRow)
    (v : ℚ) :
    goalieShotsFor season shots { r with gsax := v }
      = goalieShotsFor season shots r := rfl

lemma GoalieRow_set_set (r : GoalieRow) (a b : ℚ) :
    ({ ({ r with gsax := a } : GoalieRow) with gsax := b } : GoalieRow)
      = { r with gsax := b } := rfl

lemma updateGoalieRow_idem (season : Int) (shots : List Shot) (r : GoalieRow) :
    updateGoalieRow season shots (updateGoalieRow season shots r)
      = updateGoalieRow season shots r := by
  by_cases h : r.season_id = season ∧ goalieShotsFor season shots r ≠ []
  · have h1 : updateGoalieRow season shots r
        = { r with gsax := sumXg (goalieShotsFor season shots r)
            - (sumGoals (goalieShotsFor season shots r) : ℚ) } := by
      rw [updateGoalieRow, if_pos h]
    rw [h1, updateGoalieRow, if_pos]
    · rfl
    · exact ⟨h.1, h.2⟩
  · have h1 : updateGoalieRow season shots r = r := by
      rw [updateGoalieRow, if_neg h]
    rw [h1, h1]

lemma mem_shotKeys {shots : List Shot} {k : Int × Int × Int} :
    k ∈ shotKeys shots ↔ ∃ s, s ∈ shots ∧ shotSkaterKey s = k := by
  simp [shotKeys, List.mem_dedup]

lemma leagueRows_idem (gstats : List GoalieRow) :
    leagueRows (leagueRows gstats) = leagueRows gstats := by
  unfold leagueRows
  rw [List.filter_filter]
  congr 1
  funext r
  rw [Bool.and_self]

lemma leagueAvgSvPct_restrict (gstats : List GoalieRow) :
    leagueAvgSvPct (leagueRows gstats) = leagueAvgSvPct gstats := by
  unfold leagueAvgSvPct
  rw [leagueRows_idem]

/-! ## C6 - C10 -/

/-- C6: both aggregation passes are idempotent on unchanged shot data:
re-running `aggregate_xg_by_player` reproduces the same `xg` and
`goals_above_xg` columns, and re-running `calculate_gsax_from_shots`
reproduces the same `gsax` column, with no drift. -/
theorem c6_aggregation_idempotent (shots : List Shot) (stats : List SkaterRow)
    (season : Int) (gstats : List GoalieRow) :
    aggregate_xg_by_player shots (aggregate_xg_by_player shots stats)
      = aggregate_xg_by_player shots stats ∧
    calculate_gsax_from_shots season shots
        (calculate_gsax_from_shots season shots gstats)
      = calculate_gsax_from_shots season shots gstats := by
  constructor
  · unfold aggregate_xg_by_player
    rw [List.map_map]
    have h : updateSkaterRow shots ∘ updateSkaterRow shots
        = updateSkaterRow shots := funext (updateSkaterRow_idem shots)
    rw [h]
  · unfold calculate_gsax_from_shots
    rw [List.map_map]
    have h : updateGoalieRow season shots ∘ updateGoalieRow season shots
        = updateGoalieRow season shots :=
      funext (updateGoalieRow_idem season shots)
    rw [h]

/-- C7: the skater aggregation groups by the full `(player, team, season)`
triple: a player with shots under two different teams in one season yields
two distinct grouped rows, and each row's sums range only over the shots
whose `team_id` is that row's team — never a merged total. -/
theorem c7_group_by_full_key (shots : List Shot) (p t1 t2 season : Int)
    (hne : t1 ≠ t2)
    (h1 : ∃ s, s ∈ shots ∧ shotSkaterKey s = (p, t1, season))
    (h2 : ∃ s, s ∈ shots ∧ shotSkaterKey s = (p, t2, season)) :
    ((p, t1, season), sumXg (shotsFor shots (p, t1, season)),
        sumGoals (shotsFor shots (p, t1, season)),
        (shotsFor shots (p, t1, season)).length) ∈ aggregateRows shots ∧
    ((p, t2, season), sumXg (shotsFor shots (p, t2, season)),
        sumGoals (shotsFor shots (p, t2, season)),
        (shotsFor shots (p, t2, season)).length) ∈ aggregateRows shots ∧
    ((p, t1, season) : Int × Int × Int) ≠ (p, t2, season) ∧
    (∀ s, s ∈ shotsFor shots (p, t1, season) → s.team_id = t1) ∧
    (∀ s, s ∈ shotsFor shots (p, t2, season) → s.team_id = t2) := by
  refine ⟨List.mem_map.mpr ⟨(p, t1, season), mem_shotKeys.mpr h1, rfl⟩,
    List.mem_map.mpr ⟨(p, t2, season), mem_shotKeys.mpr h2, rfl⟩,
    by simp [Prod.ext_iff, hne], ?_, ?_⟩
  · intro s hs
    have h := (List.mem_filter.mp hs).2
    have h' : shotSkaterKey s = (p, t1, season) := by simpa using h
    have := congrArg (fun k : Int × Int × Int => k.2.1) h'
    simpa [shotSkaterKey] using this
  · intro s hs
    have h := (List.mem_filter.mp hs).2
    have h' : shotSkaterKey s = (p, t2, season) := by simpa using h
    have := congrArg (fun k : Int × Int × Int => k.2.1) h'
    simpa [shotSkaterKey] using this

/-- Player 7 shooting for team 1 in season 5 (C7 witness data). -/
def exShotA : Shot := ⟨7, 1, 2, 5, none, 1, 1⟩

/-- Player 7 shooting for team 3 in season 5 (C7 witness data). -/
def exShotB : Shot := ⟨7, 3, 2, 5, none, 2, 0⟩

/-- C7 (witness): with one shot for team 1 and one for team 3, the
aggregation produces the two separate per-team rows. -/
theorem c7_group_by_full_key_witness :
    ((7, 1, 5), sumXg (shotsFor [exShotA, exShotB] (7, 1, 5)),
        sumGoals (shotsFor [exShotA, exShotB] (7, 1, 5)),
        (shotsFor [exShotA, exShotB] (7, 1, 5)).length)
      ∈ aggregateRows [exShotA, exShotB] ∧
    ((7, 3, 5), sumXg (shotsFor [exShotA, exShotB] (7, 3, 5)),
        sumGoals (shotsFor [exShotA, exShotB] (7, 3, 5)),
        (shotsFor [exShotA, exShotB] (7, 3, 5)).length)
      ∈ aggregateRows [exShotA, exShotB] ∧
    ((7, 1, 5) : Int × Int × Int) ≠ (7, 3, 5) ∧
    (∀ s, s ∈ shotsFor [exShotA, exShotB] (7, 1, 5) → s.team_id = 1) ∧
    (∀ s, s ∈ shotsFor [exShotA, exShotB] (7, 3, 5) → s.team_id = 3) :=
  c7_group_by_full_key [exShotA, exShotB] 7 1 3 5 (by decide)
    ⟨exShotA, by simp, rfl⟩ ⟨exShotB, by simp, rfl⟩

/-- C8: from shot-level data, a goalie's stored `gsax` equals the summed
xG of the shots faced minus the actual goals against; for a season-8 row
(no shot data) with `shots_against > 0`, the estimator stores
`shots_against * (1 - league_avg_sv_pct) - goals_against`, and the league
average only depends on the goalie rows of seasons 1 and 5 (the seasons
with shot-level data) with `games_played >= 5`. -/
theorem c8_gsax_formula (season : Int) (shots : List Shot)
    (gstats : List GoalieRow) (r r8 : GoalieRow)
    (hs : r.season_id = season) (hf : goalieShotsFor season shots r ≠ [])
    (h8 : r8.season_id = 8) (ha : 0 < r8.shots_against) :
    (updateGoalieRow season shots r).gsax
        = sumXg (goalieShotsFor season shots r)
          - (sumGoals (goalieShotsFor season shots r) : ℚ) ∧
    (estimateGsaxRow gstats r8).gsax
        = (r8.shots_against : ℚ) * (1 - leagueAvgSvPct gstats)
          - (r8.goals_against : ℚ) ∧
    leagueAvgSvPct gstats = leagueAvgSvPct (leagueRows gstats) := by
  refine ⟨?_, ?_, (leagueAvgSvPct_restrict gstats).symm⟩
  · rw [updateGoalieRow, if_pos ⟨hs, hf⟩]
  · rw [estimateGsaxRow, if_pos ⟨h8, ha⟩]

/-- A season-5 shot faced by goalie 20 of team 4 (C8 witness data). -/
def exShotG : Shot := ⟨7, 3, 4, 5, some 20, 1, 0⟩

/-- Goalie 20, team 4, season 5 (C8 witness data). -/
def exGoalieA : GoalieRow := ⟨20, 4, 5, 10, 30, 3, 1, 0⟩

/-- Goalie 21, team 4, season 8 (C8 witness data). -/
def exGoalieB : GoalieRow := ⟨21, 4, 8, 6, 50, 5, 1, 0⟩

/-- C8 (witness at the concrete season-5 shot list and goalie rows). -/
theorem c8_gsax_formula_witness :
    (updateGoalieRow 5 [exShotG] exGoalieA).gsax
        = sumXg (goalieShotsFor 5 [exShotG] exGoalieA)
          - (sumGoals (goalieShotsFor 5 [exShotG] exGoalieA) : ℚ) ∧
    (estimateGsaxRow [exGoalieA, exGoalieB] exGoalieB).gsax
        = ((exGoalieB.shots_against : ℚ))
            * (1 - leagueAvgSvPct [exGoalieA, exGoalieB])
          - (exGoalieB.goals_against : ℚ) ∧
    leagueAvgSvPct [exGoalieA, exGoalieB]
      = leagueAvgSvPct (leagueRows [exGoalieA, exGoalieB]) :=
  c8_gsax_formula 5 [exShotG] [exGoalieA, exGoalieB] exGoalieA exGoalieB rfl
    (by rw [show goalieShotsFor 5 [exShotG] exGoalieA = [exShotG] from rfl]
        exact List.cons_ne_nil _ _)
    rfl (by norm_num [exGoalieB])

/-- C9 (counterexample): contrary to the claim, when a team has shots for
but no shots against, the save% fallback 91.6 is never applied: the guard
skips the team entirely and the stored PDO keeps its previous value (the
column default 100), not `shooting% + 91.6`.  Here team 1 in season 5 has
one shot for, none against, one goal for: the claim's formula gives
`100 * 1 / 1 + 91.6 = 191.6`, but the code leaves 100. -/
theorem c9_pdo_counterexample :
    pdoUpdate 100 5 1 1 0 [exShotA] = 100 ∧
    (100 : ℚ) ≠ 100 * 1 / 1 + 916/10 :=
  ⟨rfl, by norm_num⟩

/-- C9 (amended): Corsi% is `100 * cf / (cf + ca)` and defaults to 50 when
`cf + ca = 0`; PDO is written only when both shot counts are nonzero, in
which case it equals `100 * gf / sf + 100 * (sa - ga) / sa`; when either
count is zero the write is skipped and the stored PDO keeps its previous
value (default 100), so the in-expression 91.6 save% fallback is
unreachable and no division with a zero denominator is evaluated. -/
theorem c9_corsi_pdo (season team gf ga : Int) (shots : List Shot) (old : ℚ) :
    (teamShotsFor season team shots + teamShotsAgainst season team shots = 0 →
      (corsiUpdate season team shots).2.2 = 50) ∧
    (0 < teamShotsFor season team shots + teamShotsAgainst season team shots →
      (corsiUpdate season team shots).2.2
        = 100 * (teamShotsFor season team shots : ℚ)
          / ((teamShotsFor season team shots : ℚ)
            + (teamShotsAgainst season team shots : ℚ))) ∧
    (teamShotsFor season team shots = 0 ∨ teamShotsAgainst season team shots = 0 →
      pdoUpdate old season team gf ga shots = old) ∧
    (0 < teamShotsFor season team shots →
      0 < teamShotsAgainst season team shots →
      pdoUpdate old season team gf ga shots
        = 100 * (gf : ℚ) / (teamShotsFor season team shots : ℚ)
          + 100 * ((teamShotsAgainst season team shots : ℚ) - (ga : ℚ))
            / (teamShotsAgainst season team shots : ℚ)) := by
  refine ⟨?_, ?_, ?_, ?_⟩
  · intro h; simp only [corsiUpdate]; rw [if_neg (by omega)]
  · intro h; simp only [corsiUpdate]; rw [if_pos h]
  · intro h; simp only [pdoUpdate]; rw [if_neg (by omega)]
  · intro h1 h2
    simp only [pdoUpdate]
    rw [if_pos ⟨by omega, by omega⟩, if_pos h1, if_pos h2]

/-- A season-5 shot against team 1 (C9 witness data). -/
def exShotD : Shot := ⟨9, 2, 1, 5, none, 0, 0⟩

/-- C9 (witness): with one shot for and one against, team 1's PDO is
written as `100 * 2 / 1 + 100 * (1 - 0) / 1 = 300`; with no shots at all,
Corsi% defaults to 50. -/
theorem c9_corsi_pdo_witness :
    pdoUpdate 100 5 1 2 0 [exShotA, exShotD] = 300 ∧
    (corsiUpdate 5 9 []).2.2 = 50 := by
  constructor
  · have h := (c9_corsi_pdo 5 1 2 0 [exShotA, exShotD] 100).2.2.2
      (by decide) (by decide)
    rw [h]
    norm_num [show teamShotsFor 5 1 [exShotA, exShotD] = 1 from rfl,
      show teamShotsAgainst 5 1 [exShotA, exShotD] = 1 from rfl]
  · exact (c9_corsi_pdo 5 9 0 0 [] 100).1 rfl

/-- C10 (implicit): `aggregate_xg_by_player` first zeroes `xg` and
`goals_above_xg` on every skater row of every season, then re-sums from
the shots table; so any row whose `(player, team, season)` triple has no
shots ends with exactly `xg = 0` and `goals_above_xg = 0` — including a
row previously populated by the season-8 fallback estimator, whose
estimate does not survive the pass. -/
theorem c10_reset_unmatched (shots : List Shot) (rt : RateTables)
    (stats : List SkaterRow) (r : SkaterRow)
    (h : shotsFor shots (skaterKey r) = []) :
    (updateSkaterRow shots r).xg = 0 ∧
    (updateSkaterRow shots r).goals_above_xg = 0 ∧
    (updateSkaterRow shots (estimateSkaterRow rt r)).xg = 0 ∧
    (updateSkaterRow shots (estimateSkaterRow rt r)).goals_above_xg = 0 ∧
    (∀ r', r' ∈ aggregate_xg_by_player shots (estimate_season_8_xg rt stats) →
      shotsFor shots (skaterKey r') = [] →
      r'.xg = 0 ∧ r'.goals_above_xg = 0) := by
  have hk := skaterKey_estimate rt r
  refine ⟨by simp [updateSkaterRow, h], by simp [updateSkaterRow, h],
    by simp [updateSkaterRow, hk, h], by simp [updateSkaterRow, hk, h], ?_⟩
  intro r' hm hempty
  rcases List.mem_map.mp hm with ⟨b, _, rfl⟩
  rw [skaterKey_update] at hempty
  exact ⟨by simp [updateSkaterRow, hempty], by simp [updateSkaterRow, hempty]⟩

/-- Skater 11, team 1, season 8, 9 goals on 40 shots (C10 witness data);
the estimator populates this row, and the aggregation pass then resets it
because no shot-level rows exist for its key. -/
def exSkater : SkaterRow := ⟨11, 1, 8, 9, 40, "F", 0, 0⟩

/-- C10 (witness): with an empty shots table, the aggregation pass leaves
zero xG on the estimator-populated season-8 row. -/
theorem c10_reset_unmatched_witness :
    (updateSkaterRow [] (estimateSkaterRow rtEx exSkater)).xg = 0 ∧
    (updateSkaterRow [] (estimateSkaterRow rtEx exSkater)).goals_above_xg = 0 :=
  ⟨(c10_reset_unmatched [] rtEx [] exSkater rfl).2.2.1,
   (c10_reset_unmatched [] rtEx [] exSkater rfl).2.2.2.1⟩

end PWHL
